import Mathlib

/-!
# Verification of the TranscriptManager MCP server (`src/index.ts`)

This file shallowly embeds the `generate-notes-from-source` tool handler of
the TranscriptManager MCP server.  The handler is an async JavaScript
function; we model it as a pure function from an *environment* (oracles for
the filesystem, subprocess execution and `JSON.parse`) and a validated
request to a triple of (response envelope, observable effect trace, final
value of the `transcriptContent` variable).

JavaScript values flowing through the handler (notably `apiResponse.data`,
which may be `undefined`, `null`, a number, ... as well as a string) are
modelled by the inductive type `JValue`.  JavaScript truthiness of the
`||` fallbacks is modelled faithfully: an empty string and `undefined`
both select the fallback.

The course tables are plain object literals, so bracket lookup falls
through to `Object.prototype`: for course names such as `toString` or
`hasOwnProperty` — absent from the tables — the lookup yields a truthy
inherited member, not `undefined`.  This is modelled by `jsIndex` (own
entry / inherited member / miss) and `PathVal` (a path that is either a
JS string or an inherited `Object.prototype` member); `path.join` throws
a TypeError on the latter, and template-literal interpolation
stringifies it.
-/

namespace TranscriptManager

/-- A JavaScript runtime value, as needed for the data flow of the handler:
`JSON.parse` results, object-field access and the `transcriptContent`
variable. -/
inductive JValue where
  | vundefined
  | vnull
  | vbool (b : Bool)
  | vnum (n : Int)
  | vstr (s : String)
  | varr (elems : List JValue)
  | vobj (fields : List (String × JValue))
deriving Repr

/-- Observable side effects of one request, in execution order:
`console.error` diagnostics, `fs.readFile` calls, `execSync` subprocess
spawns, and `fs.writeFile` invocations (recorded with the raw value passed
as the `data` argument). -/
inductive Effect where
  | warn (msg : String)
  | readF (path : String)
  | spawn (cmd : String)
  | writeF (path : String) (content : JValue)
deriving Repr

/-- Exceptions the handler's `try` block can raise.  The message texts of
errors thrown by Node itself (`execSync`, `JSON.parse`, `fs.writeFile`) are
runtime-internal; we model them with one representative message per failure
mode — no claim depends on their exact wording, only on the catch-all
prefix the handler prepends. -/
inductive JsError where
  | execFailed (cmd : String)
  | jsonParseError
  | nullishFieldAccess (name : String)
  | writeTypeError (path : String)
  | writeFsError (path : String)
  | pathTypeError
deriving Repr

/-- Representative `error.message` text for each modelled exception. -/
def JsError.message : JsError → String
  | .execFailed cmd => "Command failed: " ++ cmd
  | .jsonParseError => "Unexpected token in JSON"
  | .nullishFieldAccess n =>
      "Cannot read properties of undefined (reading " ++ n ++ ")"
  | .writeTypeError _ =>
      "The \"data\" argument must be of type string or an instance of Buffer"
  | .writeFsError p => "ENOENT: no such file or directory, open " ++ p
  | .pathTypeError =>
      "The \"path\" argument must be of type string. Received a function"

/-- The `content`/`isError` envelope the tool handler returns (the `type:
"text"` wrapper is constant and omitted). -/
structure ToolResponse where
  isError : Bool
  text : String
deriving Repr, DecidableEq

/-- The `sourceType` enum of the zod schema: `z.enum(["local-file",
"youtube", "api"])`.  Validation is type-level: a request that reaches the
handler carries one of these three variants. -/
inductive SourceType where
  | localFile
  | youtube
  | api
deriving Repr, DecidableEq

/-- The string of the enum variant, as interpolated into messages. -/
def SourceType.str : SourceType → String
  | .localFile => "local-file"
  | .youtube => "youtube"
  | .api => "api"

/-- A validated `generate-notes-from-source` request (the zod schema's
parameter object).  `saveTranscript` has zod default `true`, so the
handler always sees a `Bool`. -/
structure ToolRequest where
  courseName : String
  lectureNumber : String
  lectureTopic : String
  sourceType : SourceType
  sourceLocation : String
  apiMethod : Option String
  apiHeaders : Option (List (String × String))
  apiBody : Option String
  outputDirectory : Option String
  outputFilename : Option String
  saveTranscript : Bool
  transcriptFilename : Option String
  specialFormatting : Option String
  contentToEmphasize : Option String
  otherInstructions : Option String

/-- The environment: oracles for the Node/OS primitives the handler calls.
`readFile path = none` models a rejected `fs.readFile`; `runProc cmd =
none` models `execSync` throwing (non-zero exit), `some out` its stdout;
`parseJSON s = none` models a `JSON.parse` SyntaxError; `writeOk path data
= false` models a rejected `fs.writeFile` (after its argument type
check). -/
structure Env where
  readFile : String → Option String
  runProc : String → Option String
  parseJSON : String → Option JValue
  writeOk : String → String → Bool

/-- What one call to the handler produces: the response envelope, the
effect trace, and the final value of the `transcriptContent` variable
(exposed for specification purposes). -/
structure RunOutcome where
  response : ToolResponse
  effects : List Effect
  transcript : JValue

/-! ## Configuration constants (lines 15-30 of `src/index.ts`) -/

def COURSE_NOTES_PATHS : List (String × String) :=
  [("Approximations Algorithms",
      "/Users/lmarte/Documents/Obsidian Vault/Approx-Algo-LP"),
   ("Math", "/Users/lmarte/Documents/Obsidian Vault/Math")]

def COURSE_TRANSCRIPT_PATHS : List (String × String) :=
  [("Approximations Algorithms",
      "/Users/lmarte/Documents/Projects/CU-Boulder/Data-Structures-Algo/Approx-Algo-LP"),
   ("Math", "/Users/lmarte/Documents/Obsidian Vault/Math/transcripts")]

def DEFAULT_NOTES_PATH : String := "/Users/lmarte/Documents/Obsidian Vault"

def DEFAULT_TRANSCRIPT_PATH : String := "/Users/lmarte/Documents/Transcripts"

/-! ## JavaScript-semantics helpers -/

/-- JS truthiness of an optional string: `undefined` and `""` are falsy. -/
def isFalsyOpt : Option String → Bool
  | none => true
  | some s => s = ""

/-- `o || d` where `o` is an optional string: falls back on `undefined`
and on the empty string. -/
def jsOrOpt (o : Option String) (d : String) : String :=
  match o with
  | none => d
  | some s => if s = "" then d else s

/-- `a || b` for plain strings: `b` exactly when `a` is empty. -/
def jsOrStr (a b : String) : String := if a = "" then b else a

/-- `path.isAbsolute` on a POSIX system: the path starts with a slash. -/
def jsIsAbsolute (p : String) : Bool :=
  match p.data with
  | [] => false
  | c :: _ => c = '/'

/-- Whether a string ends with a slash. -/
def strEndsWithSlash (s : String) : Bool :=
  match s.data.getLast? with
  | some c => c = '/'
  | none => false

/-- `path.join dir name` on two strings: inserts a separating slash
unless the directory already provides one. -/
def jsPathJoin (a b : String) : String :=
  if a = "" then b else if strEndsWithSlash a then a ++ b else a ++ "/" ++ b

/-- The property names a plain object literal inherits from
`Object.prototype`, reachable by bracket lookup even though the literal
itself has no such entry. -/
def OBJECT_PROTOTYPE_KEYS : List String :=
  ["constructor", "hasOwnProperty", "isPrototypeOf", "propertyIsEnumerable",
   "toLocaleString", "toString", "valueOf", "__defineGetter__",
   "__defineSetter__", "__lookupGetter__", "__lookupSetter__", "__proto__"]

/-- The result of a JS bracket lookup `table[key]` on an object literal:
the own entry when present (own properties shadow the prototype), an
inherited `Object.prototype` member, or `undefined`. -/
inductive JsLookup where
  | own (s : String)
  | inherited (k : String)
  | missing
deriving Repr, DecidableEq

/-- `table[key]` with prototype-chain fallthrough. -/
def jsIndex (table : List (String × String)) (key : String) : JsLookup :=
  match table.lookup key with
  | some s => .own s
  | none =>
    if OBJECT_PROTOTYPE_KEYS.contains key then .inherited key else .missing

/-- JS falsiness of a lookup result: `undefined` and the empty string are
falsy; every inherited `Object.prototype` member (a function, or
`Object.prototype` itself for `__proto__`) is truthy. -/
def isFalsyLookup : JsLookup → Bool
  | .own s => s = ""
  | .inherited _ => false
  | .missing => true

/-- A resolved path value as the program actually holds it: a JS string,
or a truthy inherited `Object.prototype` member that slipped through the
`||` fallback. -/
inductive PathVal where
  | pstr (s : String)
  | pinherited (k : String)
deriving Repr, DecidableEq

/-- `table[key] || d`: the default on `undefined` or an own empty string;
the inherited member (being truthy) passes through. -/
def jsOrDefault (l : JsLookup) (d : String) : PathVal :=
  match l with
  | .own s => if s = "" then .pstr d else .pstr s
  | .inherited k => .pinherited k
  | .missing => .pstr d

/-- How a template literal stringifies the value: a string verbatim; an
inherited member by its V8 rendering (`__proto__` is `Object.prototype`
itself, `constructor` is the `Object` function). -/
def PathVal.display : PathVal → String
  | .pstr s => s
  | .pinherited k =>
    if k = "__proto__" then "[object Object]"
    else if k = "constructor" then "function Object() \x7b [native code] \x7d"
    else "function " ++ k ++ "() \x7b [native code] \x7d"

/-- The interpolation `${a || b}` where `a` holds a `PathVal`: the
fallback `b` only on an empty string; an inherited member is truthy and
gets stringified. -/
def jsOrDisplay (a : PathVal) (b : String) : String :=
  match a with
  | .pstr s => if s = "" then b else s
  | .pinherited k => PathVal.display (.pinherited k)

/-- `path.join a b` as invoked on a resolved path value: Node validates
its arguments and throws a TypeError when `a` is not a string. -/
def jsPathJoinVal (a : PathVal) (b : String) : Except JsError String :=
  match a with
  | .pstr s => .ok (jsPathJoin s b)
  | .pinherited _ => .error .pathTypeError

/-- `o || v` where `o` is an optional request string and `v` a resolved
path value: the caller-supplied string wins unless empty. -/
def jsOrOptVal (o : Option String) (v : PathVal) : PathVal :=
  match o with
  | none => v
  | some s => if s = "" then v else .pstr s

/-- The characters matched by the JS regex class `\s` (the set relevant to
course names; the exotic Unicode space separators behave identically). -/
def isJsWhitespace (c : Char) : Bool :=
  c = ' ' || c = '\t' || c = '\n' || c = '\r' ||
  c = '\x0b' || c = '\x0c' || c = ' '

/-- `s.replace(/\s+/g, "-")`: every maximal run of whitespace characters
becomes a single hyphen.  The Boolean accumulator records whether the
previous character was whitespace (i.e. we are inside a run). -/
def replaceWsRuns (s : String) : String :=
  (s.toList.foldl
    (fun (acc : String × Bool) c =>
      if isJsWhitespace c then
        if acc.2 then acc else (acc.1.push '-', true)
      else (acc.1.push c, false))
    ("", false)).1

/-- Escape one character for a JSON string literal. -/
def jsonEscapeChar (c : Char) : String :=
  if c = '"' then "\\\"" else if c = '\\' then "\\\\"
  else if c = '\n' then "\\n" else if c = '\r' then "\\r"
  else if c = '\t' then "\\t" else String.singleton c

/-- `JSON.stringify` of a string value. -/
def jsonStringifyString (s : String) : String :=
  "\"" ++ (s.toList.foldl (fun acc c => acc ++ jsonEscapeChar c) "") ++ "\""

/-- `JSON.stringify` of a flat string-to-string record (the `apiHeaders`
object), preserving insertion order. -/
def jsonStringifyHeaders (hs : List (String × String)) : String :=
  "\x7b" ++
    String.intercalate ","
      (hs.map (fun kv =>
        jsonStringifyString kv.1 ++ ":" ++ jsonStringifyString kv.2)) ++
  "\x7d"

/-- JS property access `v[k]` as it occurs in `apiResponse.data`: throws a
TypeError on `null`/`undefined`, returns the field of an object (or
`undefined` when absent), and `undefined` on every other primitive. -/
def jsGetField (v : JValue) (k : String) : Except JsError JValue :=
  match v with
  | .vundefined => .error (.nullishFieldAccess k)
  | .vnull => .error (.nullishFieldAccess k)
  | .vobj fields => .ok ((fields.lookup k).getD .vundefined)
  | _ => .ok .vundefined

/-- The interpolation `${v.length}`: throws on `null`/`undefined`, is the
numeric length for strings and arrays, and the text `undefined` for values
without a `length` property. -/
def jsLengthStr (v : JValue) : Except JsError String :=
  match v with
  | .vundefined => .error (.nullishFieldAccess "length")
  | .vnull => .error (.nullishFieldAccess "length")
  | .vstr s => .ok (toString s.length)
  | .varr l => .ok (toString l.length)
  | _ => .ok "undefined"

/-! ## Path Resolver (lines 89-94) -/

/-- `COURSE_NOTES_PATHS[courseName] || DEFAULT_NOTES_PATH` (line 89),
with prototype-chain lookup semantics. -/
def resolveNotesPathVal (c : String) : PathVal :=
  jsOrDefault (jsIndex COURSE_NOTES_PATHS c) DEFAULT_NOTES_PATH

/-- `COURSE_TRANSCRIPT_PATHS[courseName] || DEFAULT_TRANSCRIPT_PATH`
(line 90), with prototype-chain lookup semantics. -/
def resolveTranscriptPathVal (c : String) : PathVal :=
  jsOrDefault (jsIndex COURSE_TRANSCRIPT_PATHS c) DEFAULT_TRANSCRIPT_PATH

/-- The `console.error` diagnostic for an unmapped course (line 93). -/
def warnMsg (c : String) : String :=
  "Warning: Unknown course \"" ++ c ++ "\". Using default paths."

/-! ## Derived filenames and command strings -/

/-- The default transcript filename for a `youtube` source (line 128). -/
def derivedYtFilename (c n : String) : String :=
  replaceWsRuns c ++ "-Lecture-" ++ n ++ "-YT.txt"

/-- The default transcript filename for an `api` source (line 146). -/
def derivedApiFilename (c n : String) : String :=
  replaceWsRuns c ++ "-Lecture-" ++ n ++ "-API.txt"

/-- `params.transcriptFilename || <derived>` for a `youtube` source. -/
def ytTranscriptFilename (p : ToolRequest) : String :=
  jsOrOpt p.transcriptFilename (derivedYtFilename p.courseName p.lectureNumber)

/-- `params.transcriptFilename || <derived>` for an `api` source. -/
def apiTranscriptFilename (p : ToolRequest) : String :=
  jsOrOpt p.transcriptFilename (derivedApiFilename p.courseName p.lectureNumber)

/-- The YouTube collaborator invocation (line 122). -/
def ytCommand (p : ToolRequest) : String :=
  "npx -y @anaisbetts/mcp-youtube " ++ p.sourceLocation

/-- The HTTP-fetch collaborator invocation (line 139): location, method
(defaulted to GET — note the JS `||`, so an empty string also defaults),
stringified headers, and the stringified body or nothing (with the
template's trailing space). -/
def curlCommand (p : ToolRequest) : String :=
  let method := jsOrOpt p.apiMethod "GET"
  let headers := p.apiHeaders.getD []
  let body : Option String :=
    match p.apiBody with
    | none => none
    | some s => if s = "" then none else some s
  "npx @modelcontextprotocol/server-curl " ++ p.sourceLocation ++ " " ++
    method ++ " " ++ jsonStringifyHeaders headers ++ " " ++
    (match body with
     | some b => jsonStringifyString b
     | none => "")

/-- The note-rendering collaborator command (line 160).  The handler
assembles it (and `promptArgs`) but never executes it. -/
def noteCommand : String :=
  "node /Users/lmarte/Documents/Projects/mcp-servers/note-taker/build/index.js"

/-- The `promptArgs` object assembled on lines 163-173.  It is dead code
in the source: built and never passed to anything. -/
structure PromptArgs where
  courseName : String
  lectureNumber : String
  lectureTopic : String
  transcriptFilePath : PathVal
  outputDirectory : Option String
  outputFilename : String
  specialFormatting : String
  contentToEmphasize : String
  otherInstructions : String

/-- Assembly of `promptArgs` (lines 163-173): note `transcriptFilePath`
receives the resolved transcript *directory* value and `outputDirectory`
the raw request field. -/
def mkPromptArgs (p : ToolRequest) (transcriptPath : PathVal)
    (outputFilename : String) : PromptArgs :=
  { courseName := p.courseName
    lectureNumber := p.lectureNumber
    lectureTopic := p.lectureTopic
    transcriptFilePath := transcriptPath
    outputDirectory := p.outputDirectory
    outputFilename := outputFilename
    specialFormatting := jsOrOpt p.specialFormatting ""
    contentToEmphasize := jsOrOpt p.contentToEmphasize ""
    otherInstructions := jsOrOpt p.otherInstructions "" }

/-- The `local-file` error message (line 114). -/
def notFoundMsg (path : String) : String :=
  "Error: Could not read file at " ++
    (path ++ ". Make sure the file exists and is accessible.")

/-- The success message template (lines 181-185). -/
def mkSuccessText (sourceTypeStr course source outPath lenStr : String) :
    String :=
  "Notes successfully generated from " ++ sourceTypeStr ++ " source!\n\n" ++
  "Course: " ++ course ++ "\n" ++
  "Source: " ++ source ++ "\n" ++
  "Notes saved to: " ++ outPath ++ "\n\n" ++
  "Transcript length: " ++ lenStr ++ " characters"

/-- The catch-all error envelope (lines 189-200). -/
def catchResponse (e : JsError) : ToolResponse :=
  ⟨true, "Error generating notes: " ++ e.message⟩

/-! ## Source Acquirer (lines 96-150) -/

/-- Outcome of the acquisition section of the handler (step 2):
the early `return` of the `local-file` read-failure path (carrying the
resolved path of the unreadable file), a thrown exception, or normal
completion — the latter two carrying the value of the
`transcriptContent` variable at that point. -/
inductive AcqOutcome where
  | notFoundReturn (origPath : String)
  | thrown (e : JsError) (tc : JValue)
  | acquired (tc : JValue)

/-- The resolved path of a `local-file` source (lines 102-104): taken
verbatim when absolute, otherwise joined to the transcript directory —
where `path.join` throws if the resolved directory is an inherited
`Object.prototype` member rather than a string. -/
def localFileOriginE (transcriptPath : PathVal) (p : ToolRequest) :
    Except JsError String :=
  if jsIsAbsolute p.sourceLocation then .ok p.sourceLocation
  else jsPathJoinVal transcriptPath p.sourceLocation

/-- `fs.writeFile path content`: the invocation is recorded as an effect;
a non-string `data` argument raises a TypeError, and the environment
decides whether the filesystem write itself succeeds. -/
def fsWrite (env : Env) (path : String) (content : JValue) :
    List Effect × Except JsError Unit :=
  ([Effect.writeF path content],
    match content with
    | .vstr s => if env.writeOk path s then .ok () else .error (.writeFsError path)
    | _ => .error (.writeTypeError path))

/-- The `local-file` branch (lines 100-119): resolve the location against
the transcript directory unless absolute (a `path.join` TypeError goes to
the outer catch), read it, and on read failure return the not-found
envelope directly (not via the catch block). -/
def runLocalFile (env : Env) (p : ToolRequest) (transcriptPath : PathVal) :
    List Effect × AcqOutcome :=
  match localFileOriginE transcriptPath p with
  | .error e => ([], .thrown e (.vstr ""))
  | .ok orig =>
    match env.readFile orig with
    | none => ([Effect.readF orig], .notFoundReturn orig)
    | some c => ([Effect.readF orig], .acquired (.vstr c))

/-- The `youtube` branch (lines 120-132): spawn the YouTube collaborator,
take its stdout as the transcript, and persist a copy when
`saveTranscript` is set — `path.join` on line 129 throws before
`fs.writeFile` when the resolved directory is not a string. -/
def runYoutube (env : Env) (p : ToolRequest) (transcriptPath : PathVal) :
    List Effect × AcqOutcome :=
  let cmd := ytCommand p
  match env.runProc cmd with
  | none => ([Effect.spawn cmd], .thrown (.execFailed cmd) (.vstr ""))
  | some out =>
    if p.saveTranscript then
      match jsPathJoinVal transcriptPath (ytTranscriptFilename p) with
      | .error e => ([Effect.spawn cmd], .thrown e (.vstr out))
      | .ok path =>
        let w := fsWrite env path (.vstr out)
        match w.2 with
        | .ok _ => (Effect.spawn cmd :: w.1, .acquired (.vstr out))
        | .error e => (Effect.spawn cmd :: w.1, .thrown e (.vstr out))
    else ([Effect.spawn cmd], .acquired (.vstr out))

/-- The `api` branch (lines 133-150): spawn the curl collaborator, parse
its stdout as JSON, take the `data` field as the transcript, and persist a
copy when `saveTranscript` is set — `path.join` on line 147 throws before
`fs.writeFile` when the resolved directory is not a string. -/
def runApi (env : Env) (p : ToolRequest) (transcriptPath : PathVal) :
    List Effect × AcqOutcome :=
  let cmd := curlCommand p
  match env.runProc cmd with
  | none => ([Effect.spawn cmd], .thrown (.execFailed cmd) (.vstr ""))
  | some out =>
    match env.parseJSON out with
    | none => ([Effect.spawn cmd], .thrown .jsonParseError (.vstr ""))
    | some j =>
      match jsGetField j "data" with
      | .error e => ([Effect.spawn cmd], .thrown e (.vstr ""))
      | .ok d =>
        if p.saveTranscript then
          match jsPathJoinVal transcriptPath (apiTranscriptFilename p) with
          | .error e => ([Effect.spawn cmd], .thrown e d)
          | .ok path =>
            let w := fsWrite env path d
            match w.2 with
            | .ok _ => (Effect.spawn cmd :: w.1, .acquired d)
            | .error e => (Effect.spawn cmd :: w.1, .thrown e d)
        else ([Effect.spawn cmd], .acquired d)

/-! ## Tool Dispatcher: the `generate-notes-from-source` handler
(lines 86-201) -/

/-- Step 2 of the handler: dispatch on `sourceType`. -/
def acquisition (env : Env) (p : ToolRequest) (transcriptPath : PathVal) :
    List Effect × AcqOutcome :=
  match p.sourceType with
  | .localFile => runLocalFile env p transcriptPath
  | .youtube => runYoutube env p transcriptPath
  | .api => runApi env p transcriptPath

/-- Steps 3-5 and the catch block (lines 152-200): from the acquisition
outcome, build the response envelope and the final `transcriptContent`.
The note command and `promptArgs` are assembled exactly as the source
does — without ever being executed.  `path.join` for the output path
(line 175) throws when the resolved notes value is an inherited member
and no output directory was supplied. -/
def finishOutcome (p : ToolRequest) (notesPath transcriptPath : PathVal) :
    AcqOutcome → ToolResponse × JValue
  | .notFoundReturn orig => (⟨true, notFoundMsg orig⟩, .vstr "")
  | .thrown e tc => (catchResponse e, tc)
  | .acquired tc =>
    let outputDirectory := jsOrOptVal p.outputDirectory notesPath
    let outputFilename :=
      jsOrOpt p.outputFilename
        (replaceWsRuns p.courseName ++ "-Lecture-" ++ p.lectureNumber)
    let _noteCmd := noteCommand
    let _args := mkPromptArgs p transcriptPath outputFilename
    match jsPathJoinVal outputDirectory (outputFilename ++ ".md") with
    | .error e => (catchResponse e, tc)
    | .ok fullOutputPath =>
      match jsLengthStr tc with
      | .error e => (catchResponse e, tc)
      | .ok lenStr =>
        (⟨false,
          mkSuccessText p.sourceType.str p.courseName
            (jsOrDisplay transcriptPath p.sourceLocation) fullOutputPath
            lenStr⟩,
          tc)

/-- The full handler: resolve paths (with the unknown-course warning,
which an inherited truthy lookup suppresses), acquire the transcript per
`sourceType`, then build the envelope.  Any modelled exception is
converted by the catch block into an `Error generating notes:`
envelope. -/
def generateNotes (env : Env) (p : ToolRequest) : RunOutcome :=
  let notesLookup := jsIndex COURSE_NOTES_PATHS p.courseName
  let notesPath := resolveNotesPathVal p.courseName
  let transcriptPath := resolveTranscriptPathVal p.courseName
  let warnEffs :=
    if isFalsyLookup notesLookup then [Effect.warn (warnMsg p.courseName)]
    else []
  let acq := acquisition env p transcriptPath
  let fin := finishOutcome p notesPath transcriptPath acq.2
  ⟨fin.1, warnEffs ++ acq.1, fin.2⟩

/-! ## Specification predicates -/

/-- A `NotFound`-class message: the text of the `local-file` read-failure
envelope (line 114). -/
def NotFoundClassMsg (s : String) : Prop :=
  ∃ rest, s = "Error: Could not read file at " ++ rest

/-- An `ExternalToolError`-class message: the text produced by the
handler's catch-all block (line 196). -/
def ExternalToolClassMsg (s : String) : Prop :=
  ∃ rest, s = "Error generating notes: " ++ rest

/-- The source-fetch part of acquisition runs to completion: the local
file path resolves and is readable, resp. the collaborator subprocess
exits zero (and, for `api`, its stdout parses as JSON whose `data` access
does not throw). -/
def acquisitionCompletes (env : Env) (p : ToolRequest) : Prop :=
  match p.sourceType with
  | .localFile =>
      ∃ orig c,
        localFileOriginE (resolveTranscriptPathVal p.courseName) p =
          .ok orig ∧
        env.readFile orig = some c
  | .youtube => ∃ out, env.runProc (ytCommand p) = some out
  | .api =>
      ∃ out j d, env.runProc (curlCommand p) = some out ∧
        env.parseJSON out = some j ∧ jsGetField j "data" = .ok d

/-- The acquisition step itself fails: the local file path does not
resolve or the file is unreadable, the collaborator subprocess exits
non-zero, or (for `api`) its stdout is not parseable as JSON. -/
def acquisitionFails (env : Env) (p : ToolRequest) : Prop :=
  match p.sourceType with
  | .localFile =>
      (∃ e, localFileOriginE (resolveTranscriptPathVal p.courseName) p =
        .error e) ∨
      (∃ orig,
        localFileOriginE (resolveTranscriptPathVal p.courseName) p =
          .ok orig ∧
        env.readFile orig = none)
  | .youtube => env.runProc (ytCommand p) = none
  | .api =>
      env.runProc (curlCommand p) = none ∨
        ∃ out, env.runProc (curlCommand p) = some out ∧
          env.parseJSON out = none

/-! ## Concrete fixtures for witnesses and counterexamples -/

/-- A validated request for the mapped course `Math`, lecture 3, reading
the relative local file `lec1.txt`. -/
def reqLocalMath : ToolRequest :=
  { courseName := "Math", lectureNumber := "3", lectureTopic := "Limits"
    sourceType := .localFile, sourceLocation := "lec1.txt"
    apiMethod := none, apiHeaders := none, apiBody := none
    outputDirectory := none, outputFilename := none
    saveTranscript := true, transcriptFilename := none
    specialFormatting := none, contentToEmphasize := none
    otherInstructions := none }

/-- The same request taken from a YouTube source. -/
def reqYtMath : ToolRequest :=
  { reqLocalMath with
      sourceType := .youtube, sourceLocation := "https://youtu.be/abc" }

/-- The same request taken from an HTTP API source. -/
def reqApiMath : ToolRequest :=
  { reqLocalMath with
      sourceType := .api, sourceLocation := "https://api.example.com/t" }

/-- An environment in which every external interaction fails. -/
def emptyEnv : Env :=
  { readFile := fun _ => none, runProc := fun _ => none
    parseJSON := fun _ => none, writeOk := fun _ _ => true }

/-- An environment whose filesystem returns `hello` for every read. -/
def envLocalHello : Env :=
  { emptyEnv with readFile := fun _ => some "hello" }

/-- An environment whose subprocesses print `some transcript`. -/
def envYt : Env :=
  { emptyEnv with runProc := fun _ => some "some transcript" }

/-- An environment whose subprocesses print the empty string. -/
def envYtEmpty : Env :=
  { emptyEnv with runProc := fun _ => some "" }

/-- An environment whose subprocess output parses to the JSON object
with the single field `data` holding the string `hello`. -/
def envApiOk : Env :=
  { emptyEnv with
      runProc := fun _ => some "out"
      parseJSON := fun _ => some (.vobj [("data", .vstr "hello")]) }

/-- The YouTube request for the course name `toString`, which has no
entry in the tables but collides with an `Object.prototype` property. -/
def reqProtoYt : ToolRequest :=
  { reqYtMath with courseName := "toString" }

/-- A local-file request for the course name `toString` with an absolute
source location and a caller-supplied output directory — a path on which
the inherited lookup value reaches the success message unexercised by
`path.join`. -/
def reqProtoLocal : ToolRequest :=
  { reqLocalMath with
      courseName := "toString", sourceLocation := "/tmp/lec1.txt"
      outputDirectory := some "/tmp/out" }

/-! ## Auxiliary lemmas -/

theorem jsOrDefault_ne_pstr_empty (l : JsLookup) (d : String) (hd : d ≠ "") :
    jsOrDefault l d ≠ .pstr "" := by
  cases l with
  | own s => by_cases hs : s = "" <;> simp [jsOrDefault, hs, hd]
  | inherited k => simp [jsOrDefault]
  | missing => simp [jsOrDefault, hd]

theorem resolveTranscriptPathVal_ne_pstr_empty (c : String) :
    resolveTranscriptPathVal c ≠ .pstr "" :=
  jsOrDefault_ne_pstr_empty _ _ (by decide)

theorem jsOrDisplay_eq_display (v : PathVal) (b : String)
    (hv : v ≠ .pstr "") : jsOrDisplay v b = v.display := by
  cases v with
  | pstr s =>
    by_cases hs : s = ""
    · subst hs; exact absurd rfl hv
    · simp [jsOrDisplay, PathVal.display, hs]
  | pinherited k => rfl

theorem catchResponse_class (e : JsError) :
    (catchResponse e).isError = true ∧
      ExternalToolClassMsg (catchResponse e).text :=
  ⟨rfl, ⟨e.message, rfl⟩⟩

theorem finishOutcome_acquired_undefined_class (p : ToolRequest)
    (nv tv : PathVal) :
    (finishOutcome p nv tv (.acquired .vundefined)).1.isError = true ∧
      ExternalToolClassMsg
        (finishOutcome p nv tv (.acquired .vundefined)).1.text := by
  simp only [finishOutcome]
  split
  · exact catchResponse_class _
  · exact catchResponse_class _

theorem finishOutcome_success_text (p : ToolRequest)
    (notesPath transcriptPath : PathVal) (a : AcqOutcome)
    (h : (finishOutcome p notesPath transcriptPath a).1.isError = false) :
    ∃ outPath lenStr,
      (finishOutcome p notesPath transcriptPath a).1.text =
        mkSuccessText p.sourceType.str p.courseName
          (jsOrDisplay transcriptPath p.sourceLocation) outPath lenStr := by
  cases a with
  | notFoundReturn orig => simp [finishOutcome] at h
  | thrown e tc => simp [finishOutcome, catchResponse] at h
  | acquired tc =>
    simp only [finishOutcome] at h ⊢
    cases hj : jsPathJoinVal (jsOrOptVal p.outputDirectory notesPath)
        (jsOrOpt p.outputFilename
          (replaceWsRuns p.courseName ++ "-Lecture-" ++ p.lectureNumber) ++
          ".md") with
    | error e => rw [hj] at h; simp [catchResponse] at h
    | ok fullOutputPath =>
      rw [hj] at h
      cases hl : jsLengthStr tc with
      | error e => rw [hl] at h; simp [catchResponse] at h
      | ok lenStr => exact ⟨fullOutputPath, lenStr, rfl⟩

theorem generateNotes_effects (env : Env) (p : ToolRequest) :
    (generateNotes env p).effects =
      (if isFalsyLookup (jsIndex COURSE_NOTES_PATHS p.courseName) then
        [Effect.warn (warnMsg p.courseName)] else []) ++
      (acquisition env p (resolveTranscriptPathVal p.courseName)).1 := rfl

theorem generateNotes_response (env : Env) (p : ToolRequest) :
    (generateNotes env p).response =
      (finishOutcome p (resolveNotesPathVal p.courseName)
        (resolveTranscriptPathVal p.courseName)
        (acquisition env p (resolveTranscriptPathVal p.courseName)).2).1 := rfl

theorem writeF_mem_generateNotes (env : Env) (p : ToolRequest)
    (path : String) (c : JValue) :
    Effect.writeF path c ∈ (generateNotes env p).effects ↔
      Effect.writeF path c ∈
        (acquisition env p (resolveTranscriptPathVal p.courseName)).1 := by
  rw [generateNotes_effects]
  simp only [List.mem_append]
  constructor
  · rintro (h | h)
    · split at h <;> simp_all
    · exact h
  · intro h; exact Or.inr h

theorem spawn_mem_generateNotes (env : Env) (p : ToolRequest) (cmd : String) :
    Effect.spawn cmd ∈ (generateNotes env p).effects ↔
      Effect.spawn cmd ∈
        (acquisition env p (resolveTranscriptPathVal p.courseName)).1 := by
  rw [generateNotes_effects]
  simp only [List.mem_append]
  constructor
  · rintro (h | h)
    · split at h <;> simp_all
    · exact h
  · intro h; exact Or.inr h

theorem acquisition_localFile (env : Env) (p : ToolRequest)
    (hT : p.sourceType = .localFile) (tp : PathVal) :
    acquisition env p tp = runLocalFile env p tp := by
  simp [acquisition, hT]

theorem acquisition_youtube (env : Env) (p : ToolRequest)
    (hT : p.sourceType = .youtube) (tp : PathVal) :
    acquisition env p tp = runYoutube env p tp := by
  simp [acquisition, hT]

theorem acquisition_api (env : Env) (p : ToolRequest)
    (hT : p.sourceType = .api) (tp : PathVal) :
    acquisition env p tp = runApi env p tp := by
  simp [acquisition, hT]

theorem runLocalFile_no_writeF (env : Env) (p : ToolRequest) (tp : PathVal)
    (path : String) (c : JValue) :
    Effect.writeF path c ∉ (runLocalFile env p tp).1 := by
  simp only [runLocalFile]
  repeat' split
  all_goals simp

theorem runYoutube_writeF_save (env : Env) (p : ToolRequest) (tp : PathVal)
    (path : String) (c : JValue)
    (h : Effect.writeF path c ∈ (runYoutube env p tp).1) :
    p.saveTranscript = true := by
  simp only [runYoutube] at h
  repeat' split at h
  all_goals simp [fsWrite] at h
  all_goals assumption

theorem runApi_writeF_save (env : Env) (p : ToolRequest) (tp : PathVal)
    (path : String) (c : JValue)
    (h : Effect.writeF path c ∈ (runApi env p tp).1) :
    p.saveTranscript = true := by
  simp only [runApi] at h
  repeat' split at h
  all_goals simp [fsWrite] at h
  all_goals assumption

theorem runYoutube_writeF_iff (env : Env) (p : ToolRequest) (dir : String) :
    (∃ path c, Effect.writeF path c ∈ (runYoutube env p (.pstr dir)).1) ↔
      (p.saveTranscript = true ∧ ∃ out, env.runProc (ytCommand p) = some out) := by
  unfold runYoutube
  cases hR : env.runProc (ytCommand p) with
  | none => simp [hR]
  | some out =>
    simp only [hR]
    cases hS : p.saveTranscript with
    | false => simp [hS]
    | true =>
      simp only [if_true, jsPathJoinVal, fsWrite]
      constructor
      · intro _; exact ⟨trivial, out, rfl⟩
      · intro _
        refine ⟨jsPathJoin dir (ytTranscriptFilename p), .vstr out, ?_⟩
        split <;> simp

theorem runApi_writeF_iff (env : Env) (p : ToolRequest) (dir : String) :
    (∃ path c, Effect.writeF path c ∈ (runApi env p (.pstr dir)).1) ↔
      (p.saveTranscript = true ∧
        ∃ out j d, env.runProc (curlCommand p) = some out ∧
          env.parseJSON out = some j ∧ jsGetField j "data" = .ok d) := by
  unfold runApi
  cases hR : env.runProc (curlCommand p) with
  | none => simp [hR]
  | some out =>
    simp only [hR]
    cases hP : env.parseJSON out with
    | none => simp [hP]
    | some j =>
      simp only [hP]
      cases hG : jsGetField j "data" with
      | error e => simp [hR, hP, hG]
      | ok d =>
        simp only [hG]
        cases hS : p.saveTranscript with
        | false => simp [hS]
        | true =>
          simp only [hS, if_true, jsPathJoinVal, fsWrite]
          constructor
          · intro _
            exact ⟨trivial, out, j, d, rfl, hP, hG⟩
          · intro _
            refine ⟨jsPathJoin dir (apiTranscriptFilename p), d, ?_⟩
            split <;> simp

/-- Claim C3: for every `generate-notes-from-source` request with sourceType
`local-file` whose target file (the source location taken as absolute, or
joined to the resolved transcript directory when relative) is missing or
unreadable, the operation returns an envelope with `isError = true` and a
`NotFound`-class message, performs no filesystem write, and spawns no
subprocess. -/
theorem local_file_missing_not_found (env : Env) (p : ToolRequest)
    (hT : p.sourceType = .localFile) (orig : String)
    (hO : localFileOriginE (resolveTranscriptPathVal p.courseName) p =
      .ok orig)
    (hR : env.readFile orig = none) :
    (generateNotes env p).response.isError = true ∧
    NotFoundClassMsg (generateNotes env p).response.text ∧
    (∀ path c, Effect.writeF path c ∉ (generateNotes env p).effects) ∧
    (∀ cmd, Effect.spawn cmd ∉ (generateNotes env p).effects) := by
  have hacq : acquisition env p (resolveTranscriptPathVal p.courseName) =
      ([Effect.readF orig], .notFoundReturn orig) := by
    rw [acquisition_localFile env p hT]
    simp [runLocalFile, hO, hR]
  refine ⟨?_, ?_, ?_, ?_⟩
  · rw [generateNotes_response, hacq]
    rfl
  · rw [generateNotes_response, hacq]
    exact ⟨_, rfl⟩
  · intro path c
    rw [writeF_mem_generateNotes, hacq]
    simp
  · intro cmd
    rw [spawn_mem_generateNotes, hacq]
    simp

/-- Witness for C3 at a concrete input: the `Math` local-file request in an
environment where every read fails. -/
theorem local_file_missing_not_found_witness :
    (generateNotes emptyEnv reqLocalMath).response.isError = true ∧
    NotFoundClassMsg (generateNotes emptyEnv reqLocalMath).response.text ∧
    (∀ path c,
      Effect.writeF path c ∉ (generateNotes emptyEnv reqLocalMath).effects) ∧
    (∀ cmd,
      Effect.spawn cmd ∉ (generateNotes emptyEnv reqLocalMath).effects) :=
  local_file_missing_not_found emptyEnv reqLocalMath rfl
    "/Users/lmarte/Documents/Obsidian Vault/Math/transcripts/lec1.txt" rfl rfl

/-- Claim C4: for every `http-api` request, if the HTTP-fetch subprocess
exits non-zero, or its stdout is not parseable as JSON, or the parsed JSON
object has no `data` field, the operation returns an error envelope
(`isError = true`) of the `ExternalToolError` class rather than a success
envelope. -/
theorem api_failure_error_envelope (env : Env) (p : ToolRequest)
    (hT : p.sourceType = .api)
    (hFail :
      env.runProc (curlCommand p) = none ∨
      (∃ out, env.runProc (curlCommand p) = some out ∧
        env.parseJSON out = none) ∨
      (∃ out fields, env.runProc (curlCommand p) = some out ∧
        env.parseJSON out = some (.vobj fields) ∧
        fields.lookup "data" = none)) :
    (generateNotes env p).response.isError = true ∧
    ExternalToolClassMsg (generateNotes env p).response.text := by
  rw [generateNotes_response, acquisition_api env p hT]
  rcases hFail with hR | ⟨out, hR, hP⟩ | ⟨out, fields, hR, hP, hD⟩
  · simp only [runApi, hR]
    exact catchResponse_class _
  · simp only [runApi, hR, hP]
    exact catchResponse_class _
  · have hG : jsGetField (.vobj fields) "data" = .ok .vundefined := by
      simp [jsGetField, hD]
    simp only [runApi, hR, hP, hG]
    cases hS : p.saveTranscript with
    | false =>
      simp only [Bool.false_eq_true, if_false]
      exact finishOutcome_acquired_undefined_class p _ _
    | true =>
      simp only [if_true]
      cases hj : jsPathJoinVal (resolveTranscriptPathVal p.courseName)
          (apiTranscriptFilename p) with
      | error e => exact catchResponse_class _
      | ok path => exact catchResponse_class _

/-- Witness for C4 at a concrete input: the `Math` api request in an
environment whose subprocesses all fail. -/
theorem api_failure_error_envelope_witness :
    (generateNotes emptyEnv reqApiMath).response.isError = true ∧
    ExternalToolClassMsg (generateNotes emptyEnv reqApiMath).response.text :=
  api_failure_error_envelope emptyEnv reqApiMath rfl (Or.inl rfl)

/-- Claim C2, amended: if the acquisition step itself fails (the local
file path does not resolve or the file is unreadable, the collaborator
exits non-zero, or its output is unparseable), the request returns an
error envelope and performs no transcript write — it fails before the
Artifact Writer.  The original claim's guarantee that a written or
successfully reported transcript is non-empty does not hold (see the
counterexample): the acquired text is persisted and reported verbatim,
even when empty. -/
theorem acquisition_failure_stops_before_writer (env : Env) (p : ToolRequest)
    (h : acquisitionFails env p) :
    (generateNotes env p).response.isError = true ∧
    ∀ path c, Effect.writeF path c ∉ (generateNotes env p).effects := by
  cases hT : p.sourceType with
  | localFile =>
    simp only [acquisitionFails, hT] at h
    rcases h with ⟨e, hO⟩ | ⟨orig, hO, hR⟩
    · have hacq : acquisition env p (resolveTranscriptPathVal p.courseName) =
          ([], .thrown e (.vstr "")) := by
        rw [acquisition_localFile env p hT]
        simp [runLocalFile, hO]
      constructor
      · rw [generateNotes_response, hacq]; rfl
      · intro path c; rw [writeF_mem_generateNotes, hacq]; simp
    · have hacq : acquisition env p (resolveTranscriptPathVal p.courseName) =
          ([Effect.readF orig], .notFoundReturn orig) := by
        rw [acquisition_localFile env p hT]
        simp [runLocalFile, hO, hR]
      constructor
      · rw [generateNotes_response, hacq]; rfl
      · intro path c; rw [writeF_mem_generateNotes, hacq]; simp
  | youtube =>
    simp only [acquisitionFails, hT] at h
    have hacq : acquisition env p (resolveTranscriptPathVal p.courseName) =
        ([Effect.spawn (ytCommand p)],
          .thrown (.execFailed (ytCommand p)) (.vstr "")) := by
      rw [acquisition_youtube env p hT]
      simp [runYoutube, h]
    constructor
    · rw [generateNotes_response, hacq]; rfl
    · intro path c; rw [writeF_mem_generateNotes, hacq]; simp
  | api =>
    simp only [acquisitionFails, hT] at h
    rcases h with hR | ⟨out, hR, hP⟩
    · have hacq : acquisition env p (resolveTranscriptPathVal p.courseName) =
          ([Effect.spawn (curlCommand p)],
            .thrown (.execFailed (curlCommand p)) (.vstr "")) := by
        rw [acquisition_api env p hT]
        simp [runApi, hR]
      constructor
      · rw [generateNotes_response, hacq]; rfl
      · intro path c; rw [writeF_mem_generateNotes, hacq]; simp
    · have hacq : acquisition env p (resolveTranscriptPathVal p.courseName) =
          ([Effect.spawn (curlCommand p)],
            .thrown .jsonParseError (.vstr "")) := by
        rw [acquisition_api env p hT]
        simp [runApi, hR, hP]
      constructor
      · rw [generateNotes_response, hacq]; rfl
      · intro path c; rw [writeF_mem_generateNotes, hacq]; simp

/-- Witness for the amended C2 at a concrete input: the `Math` local-file
request in an environment where every read fails. -/
theorem acquisition_failure_stops_before_writer_witness :
    acquisitionFails emptyEnv reqLocalMath ∧
    ((generateNotes emptyEnv reqLocalMath).response.isError = true ∧
      ∀ path c,
        Effect.writeF path c ∉ (generateNotes emptyEnv reqLocalMath).effects) :=
  ⟨Or.inr ⟨"/Users/lmarte/Documents/Obsidian Vault/Math/transcripts/lec1.txt",
      rfl, rfl⟩,
    acquisition_failure_stops_before_writer emptyEnv reqLocalMath
      (Or.inr
        ⟨"/Users/lmarte/Documents/Obsidian Vault/Math/transcripts/lec1.txt",
          rfl, rfl⟩)⟩

/-- Counterexample to Claim C2 as stated: a YouTube request whose
collaborator prints the empty string reaches the Artifact Writer (a
transcript write of the empty string is performed) and completes with a
success envelope, while the acquired transcript text is empty. -/
theorem empty_transcript_reaches_writer_and_succeeds :
    Effect.writeF
      "/Users/lmarte/Documents/Obsidian Vault/Math/transcripts/Math-Lecture-3-YT.txt"
      (.vstr "") ∈ (generateNotes envYtEmpty reqYtMath).effects ∧
    (generateNotes envYtEmpty reqYtMath).response.isError = false ∧
    (generateNotes envYtEmpty reqYtMath).transcript = .vstr "" := by
  refine ⟨?_, rfl, rfl⟩
  rw [show (generateNotes envYtEmpty reqYtMath).effects =
    [Effect.spawn (ytCommand reqYtMath),
     Effect.writeF
       "/Users/lmarte/Documents/Obsidian Vault/Math/transcripts/Math-Lecture-3-YT.txt"
       (.vstr "")] from rfl]
  exact List.mem_cons_of_mem _ (List.mem_singleton.mpr rfl)

/-- Counterexample to Claim C6 as stated: for the course name `toString` —
a collision with an `Object.prototype` property — a YouTube request with
`saveTranscript = true` whose collaborator succeeds still performs no
transcript write: `path.join` throws on the inherited lookup value before
`fs.writeFile`, so the flag-and-sourceType condition holds, the
acquisition completes, and yet the Artifact Writer is never invoked (the
request ends in an error envelope). -/
theorem write_skipped_for_inherited_course :
    reqProtoYt.saveTranscript = true ∧
    reqProtoYt.sourceType = .youtube ∧
    acquisitionCompletes envYt reqProtoYt ∧
    (∀ path c, Effect.writeF path c ∉ (generateNotes envYt reqProtoYt).effects) ∧
    (generateNotes envYt reqProtoYt).response.isError = true := by
  refine ⟨rfl, rfl, ⟨"some transcript", rfl⟩, ?_, rfl⟩
  intro path c
  rw [show (generateNotes envYt reqProtoYt).effects =
    [Effect.spawn (ytCommand reqProtoYt)] from rfl]
  simp

/-- Claim C6, amended: a transcript write implies `saveTranscript = true`
and sourceType `youtube` or `api` — unconditionally, so a `local-file`
request never writes a transcript regardless of the flag.  The converse
(the `exactly when`) holds for requests whose resolved transcript lookup
is a string — i.e. whose course name does not collide with an
`Object.prototype` property — and whose acquisition completes; at a
colliding course name `path.join` throws before the writer (see the
counterexample). -/
theorem transcript_write_characterization (env : Env) (p : ToolRequest) :
    ((∃ path c, Effect.writeF path c ∈ (generateNotes env p).effects) →
      p.saveTranscript = true ∧
        (p.sourceType = .youtube ∨ p.sourceType = .api)) ∧
    (∀ dir, resolveTranscriptPathVal p.courseName = .pstr dir →
      acquisitionCompletes env p →
      ((∃ path c, Effect.writeF path c ∈ (generateNotes env p).effects) ↔
        (p.saveTranscript = true ∧
          (p.sourceType = .youtube ∨ p.sourceType = .api)))) := by
  constructor
  · rintro ⟨path, c, hm⟩
    rw [writeF_mem_generateNotes] at hm
    cases hT : p.sourceType with
    | localFile =>
      rw [acquisition_localFile env p hT] at hm
      exact absurd hm (runLocalFile_no_writeF env p _ path c)
    | youtube =>
      rw [acquisition_youtube env p hT] at hm
      exact ⟨runYoutube_writeF_save env p _ path c hm, Or.inl rfl⟩
    | api =>
      rw [acquisition_api env p hT] at hm
      exact ⟨runApi_writeF_save env p _ path c hm, Or.inr rfl⟩
  · intro dir hdir hc
    have hmem : (∃ path c,
        Effect.writeF path c ∈ (generateNotes env p).effects) ↔
        (∃ path c, Effect.writeF path c ∈
          (acquisition env p (resolveTranscriptPathVal p.courseName)).1) := by
      constructor
      · rintro ⟨path, c, hm⟩
        exact ⟨path, c, (writeF_mem_generateNotes env p path c).mp hm⟩
      · rintro ⟨path, c, hm⟩
        exact ⟨path, c, (writeF_mem_generateNotes env p path c).mpr hm⟩
    cases hT : p.sourceType with
    | localFile =>
      rw [hmem, acquisition_localFile env p hT]
      constructor
      · rintro ⟨path, c, hm⟩
        exact absurd hm (runLocalFile_no_writeF env p _ path c)
      · rintro ⟨_, h | h⟩ <;> cases h
    | youtube =>
      rw [hmem, acquisition_youtube env p hT, hdir, runYoutube_writeF_iff]
      simp only [acquisitionCompletes, hT] at hc
      constructor
      · rintro ⟨hS, _⟩
        exact ⟨hS, Or.inl rfl⟩
      · rintro ⟨hS, _⟩
        exact ⟨hS, hc⟩
    | api =>
      rw [hmem, acquisition_api env p hT, hdir, runApi_writeF_iff]
      simp only [acquisitionCompletes, hT] at hc
      constructor
      · rintro ⟨hS, _⟩
        exact ⟨hS, Or.inr rfl⟩
      · rintro ⟨hS, _⟩
        exact ⟨hS, hc⟩

/-- Witness for the amended C6 at a concrete input: the `Math` YouTube
request with `saveTranscript = true` in an environment whose subprocesses
succeed. -/
theorem transcript_write_characterization_witness :
    acquisitionCompletes envYt reqYtMath ∧
    resolveTranscriptPathVal reqYtMath.courseName =
      .pstr "/Users/lmarte/Documents/Obsidian Vault/Math/transcripts" ∧
    ((∃ path c, Effect.writeF path c ∈ (generateNotes envYt reqYtMath).effects) ↔
      (reqYtMath.saveTranscript = true ∧
        (reqYtMath.sourceType = .youtube ∨ reqYtMath.sourceType = .api))) :=
  ⟨⟨"some transcript", rfl⟩, rfl,
    (transcript_write_characterization envYt reqYtMath).2
      "/Users/lmarte/Documents/Obsidian Vault/Math/transcripts" rfl
      ⟨"some transcript", rfl⟩⟩

/-- Claim C5: every `http-api` request with `saveTranscript = true` that
completes with a success envelope records a transcript-file write at the
path obtained by joining the resolved transcript directory (a genuine
string on every success path) with the caller-supplied or derived
filename, whose content is exactly the string in the `data` field of the
JSON object the HTTP-fetch collaborator printed on stdout — and that
write succeeded. -/
theorem api_save_success_writes_data (env : Env) (p : ToolRequest)
    (hT : p.sourceType = .api) (hS : p.saveTranscript = true)
    (hOk : (generateNotes env p).response.isError = false) :
    ∃ dir s,
      resolveTranscriptPathVal p.courseName = .pstr dir ∧
      Effect.writeF (jsPathJoin dir (apiTranscriptFilename p))
        (.vstr s) ∈ (generateNotes env p).effects ∧
      env.writeOk (jsPathJoin dir (apiTranscriptFilename p)) s = true ∧
      ∃ out j, env.runProc (curlCommand p) = some out ∧
        env.parseJSON out = some j ∧ jsGetField j "data" = .ok (.vstr s) := by
  rw [generateNotes_response, acquisition_api env p hT] at hOk
  cases htp : resolveTranscriptPathVal p.courseName with
  | pinherited k =>
    rw [htp] at hOk
    cases hR : env.runProc (curlCommand p) with
    | none => simp [runApi, hR, finishOutcome, catchResponse] at hOk
    | some out =>
      cases hP : env.parseJSON out with
      | none => simp [runApi, hR, hP, finishOutcome, catchResponse] at hOk
      | some j =>
        cases hG : jsGetField j "data" with
        | error e =>
          simp [runApi, hR, hP, hG, finishOutcome, catchResponse] at hOk
        | ok d =>
          simp [runApi, hR, hP, hG, hS, jsPathJoinVal, finishOutcome,
            catchResponse] at hOk
  | pstr dir =>
    rw [htp] at hOk
    cases hR : env.runProc (curlCommand p) with
    | none => simp [runApi, hR, finishOutcome, catchResponse] at hOk
    | some out =>
      cases hP : env.parseJSON out with
      | none => simp [runApi, hR, hP, finishOutcome, catchResponse] at hOk
      | some j =>
        cases hG : jsGetField j "data" with
        | error e =>
          simp [runApi, hR, hP, hG, finishOutcome, catchResponse] at hOk
        | ok d =>
          cases d with
          | vstr s =>
            cases hW : env.writeOk (jsPathJoin dir (apiTranscriptFilename p)) s with
            | false =>
              simp [runApi, hR, hP, hG, hS, jsPathJoinVal, fsWrite, hW,
                finishOutcome, catchResponse] at hOk
            | true =>
              refine ⟨dir, s, rfl, ?_, hW, out, j, rfl, hP, hG⟩
              rw [writeF_mem_generateNotes, acquisition_api env p hT, htp]
              simp [runApi, hR, hP, hG, hS, jsPathJoinVal, fsWrite, hW]
          | vundefined =>
            simp [runApi, hR, hP, hG, hS, jsPathJoinVal, fsWrite,
              finishOutcome, catchResponse] at hOk
          | vnull =>
            simp [runApi, hR, hP, hG, hS, jsPathJoinVal, fsWrite,
              finishOutcome, catchResponse] at hOk
          | vbool b =>
            simp [runApi, hR, hP, hG, hS, jsPathJoinVal, fsWrite,
              finishOutcome, catchResponse] at hOk
          | vnum n =>
            simp [runApi, hR, hP, hG, hS, jsPathJoinVal, fsWrite,
              finishOutcome, catchResponse] at hOk
          | varr l =>
            simp [runApi, hR, hP, hG, hS, jsPathJoinVal, fsWrite,
              finishOutcome, catchResponse] at hOk
          | vobj fields =>
            simp [runApi, hR, hP, hG, hS, jsPathJoinVal, fsWrite,
              finishOutcome, catchResponse] at hOk

/-- Witness for C5 at a concrete input: the `Math` api request in an
environment whose collaborator output parses to an object with a string
`data` field. -/
theorem api_save_success_writes_data_witness :
    ∃ dir s,
      resolveTranscriptPathVal reqApiMath.courseName = .pstr dir ∧
      Effect.writeF (jsPathJoin dir (apiTranscriptFilename reqApiMath))
        (.vstr s) ∈ (generateNotes envApiOk reqApiMath).effects ∧
      envApiOk.writeOk (jsPathJoin dir (apiTranscriptFilename reqApiMath)) s
        = true ∧
      ∃ out j, envApiOk.runProc (curlCommand reqApiMath) = some out ∧
        envApiOk.parseJSON out = some j ∧
        jsGetField j "data" = .ok (.vstr s) :=
  api_save_success_writes_data envApiOk reqApiMath rfl rfl rfl

theorem runLocalFile_spawn_empty (env : Env) (p : ToolRequest) (tp : PathVal)
    (cmd : String)
    (h : Effect.spawn cmd ∈ (runLocalFile env p tp).1) : False := by
  simp only [runLocalFile] at h
  repeat' split at h
  all_goals simp at h

theorem runYoutube_spawn_eq (env : Env) (p : ToolRequest) (tp : PathVal)
    (cmd : String)
    (h : Effect.spawn cmd ∈ (runYoutube env p tp).1) : cmd = ytCommand p := by
  simp only [runYoutube] at h
  repeat' split at h
  all_goals simp [fsWrite] at h
  all_goals exact h

theorem runApi_spawn_eq (env : Env) (p : ToolRequest) (tp : PathVal)
    (cmd : String)
    (h : Effect.spawn cmd ∈ (runApi env p tp).1) : cmd = curlCommand p := by
  simp only [runApi] at h
  repeat' split at h
  all_goals simp [fsWrite] at h
  all_goals exact h

theorem spawn_mem_only_collaborators (env : Env) (p : ToolRequest)
    (cmd : String)
    (h : Effect.spawn cmd ∈ (generateNotes env p).effects) :
    cmd = ytCommand p ∨ cmd = curlCommand p := by
  rw [spawn_mem_generateNotes] at h
  cases hT : p.sourceType with
  | localFile =>
    rw [acquisition_localFile env p hT] at h
    exact absurd h (fun hm => runLocalFile_spawn_empty env p _ cmd hm)
  | youtube =>
    rw [acquisition_youtube env p hT] at h
    exact Or.inl (runYoutube_spawn_eq env p _ cmd h)
  | api =>
    rw [acquisition_api env p hT] at h
    exact Or.inr (runApi_spawn_eq env p _ cmd h)

theorem ytCommand_ne_noteCommand (p : ToolRequest) :
    ytCommand p ≠ noteCommand := by
  intro h
  have h2 := congrArg String.data h
  simp only [ytCommand, noteCommand, String.data_append] at h2
  simp only [List.cons_append] at h2
  injection h2 with ha hb
  injection hb with hc hd
  exact absurd hc (by decide)

theorem curlCommand_ne_noteCommand (p : ToolRequest) :
    curlCommand p ≠ noteCommand := by
  intro h
  have h2 := congrArg String.data h
  simp only [curlCommand, noteCommand, String.data_append] at h2
  simp only [List.cons_append] at h2
  injection h2 with ha hb
  injection hb with hc hd
  exact absurd hc (by decide)

/-- Claim C1 (a bug in the source): the spec requires the Note Delegate to
invoke the external note-rendering collaborator as a subprocess before the
dispatcher returns the success envelope, and the handler's own success
message asserts notes were generated; but the handler only assembles
`noteCommand` (and `promptArgs`) and never executes them.  No run of
`generateNotes`, over any environment and any request, ever spawns
`noteCommand`; yet e.g. the fixture YouTube request still completes with a
success envelope. -/
theorem note_renderer_never_spawned :
    (∀ (env : Env) (p : ToolRequest),
      Effect.spawn noteCommand ∉ (generateNotes env p).effects) ∧
    (generateNotes envYt reqYtMath).response.isError = false := by
  refine ⟨?_, rfl⟩
  intro env p h
  rcases spawn_mem_only_collaborators env p noteCommand h with h1 | h1
  · exact ytCommand_ne_noteCommand p h1.symm
  · exact curlCommand_ne_noteCommand p h1.symm

/-- Claim C7: for courseName `Math`, lectureNumber `3`, a remote-video
(YouTube) source with `saveTranscript = true` and no `transcriptFilename`
supplied, the persisted transcript filename is `Math-Lecture-3-YT.txt`
(shown as the recorded write at the resolved transcript directory); in
general the derived filename is the course name with every whitespace run
replaced by a hyphen, followed by `-Lecture-`, the lecture number, and the
source-type suffix. -/
theorem yt_derived_filename_law :
    derivedYtFilename "Math" "3" = "Math-Lecture-3-YT.txt" ∧
    derivedYtFilename "Operating  Systems" "2" =
      "Operating-Systems-Lecture-2-YT.txt" ∧
    (∀ c n, derivedYtFilename c n =
      replaceWsRuns c ++ "-Lecture-" ++ n ++ "-YT.txt") ∧
    Effect.writeF
      "/Users/lmarte/Documents/Obsidian Vault/Math/transcripts/Math-Lecture-3-YT.txt"
      (.vstr "some transcript") ∈ (generateNotes envYt reqYtMath).effects := by
  refine ⟨rfl, rfl, fun c n => rfl, ?_⟩
  rw [show (generateNotes envYt reqYtMath).effects =
    [Effect.spawn (ytCommand reqYtMath),
     Effect.writeF
       "/Users/lmarte/Documents/Obsidian Vault/Math/transcripts/Math-Lecture-3-YT.txt"
       (.vstr "some transcript")] from rfl]
  exact List.mem_cons_of_mem _ (List.mem_singleton.mpr rfl)

/-- Claim C10: for an `http-api` source with `saveTranscript = true` and no
`transcriptFilename` supplied, the derived transcript filename is the
course name with every whitespace run replaced by a hyphen, followed by
`-Lecture-`, the lecture number, and the suffix `-API.txt` — the same law
the spec states for remote-video, with the API suffix. -/
theorem api_derived_filename_law :
    derivedApiFilename "Math" "3" = "Math-Lecture-3-API.txt" ∧
    derivedApiFilename "A \t B" "1" = "A-B-Lecture-1-API.txt" ∧
    (∀ c n, derivedApiFilename c n =
      replaceWsRuns c ++ "-Lecture-" ++ n ++ "-API.txt") ∧
    Effect.writeF
      "/Users/lmarte/Documents/Obsidian Vault/Math/transcripts/Math-Lecture-3-API.txt"
      (.vstr "hello") ∈ (generateNotes envApiOk reqApiMath).effects := by
  refine ⟨rfl, rfl, fun c n => rfl, ?_⟩
  rw [show (generateNotes envApiOk reqApiMath).effects =
    [Effect.spawn (curlCommand reqApiMath),
     Effect.writeF
       "/Users/lmarte/Documents/Obsidian Vault/Math/transcripts/Math-Lecture-3-API.txt"
       (.vstr "hello")] from rfl]
  exact List.mem_cons_of_mem _ (List.mem_singleton.mpr rfl)

/-- Counterexample to Claim C9 as stated: a success envelope is reachable
(course name `toString`, absolute local file, caller-supplied output
directory) whose `Source:` line prints the stringified inherited
`Object.prototype` member — not the resolved transcript directory, which
for this unmapped course name is not even a string, let alone the default
directory. -/
theorem source_line_inherited_counterexample :
    (generateNotes envLocalHello reqProtoLocal).response.isError = false ∧
    (generateNotes envLocalHello reqProtoLocal).response.text =
      mkSuccessText "local-file" "toString"
        "function toString() \x7b [native code] \x7d"
        "/tmp/out/toString-Lecture-3.md" "5" ∧
    resolveTranscriptPathVal "toString" ≠ .pstr DEFAULT_TRANSCRIPT_PATH ∧
    COURSE_TRANSCRIPT_PATHS.lookup "toString" = none := by
  refine ⟨rfl, rfl, ?_, rfl⟩
  decide

/-- Claim C9, amended: every success envelope's `Source:` line prints the
stringification of the resolved transcript lookup value and never the
request's `sourceLocation` — the `||` fallback is unreachable because the
looked-up value is never falsy.  For course names that do not collide
with an `Object.prototype` property that value is the resolved transcript
directory string; for colliding names it is the stringified inherited
member (see the counterexample). -/
theorem success_source_line (env : Env) (p : ToolRequest)
    (hOk : (generateNotes env p).response.isError = false) :
    (∃ outPath lenStr,
      (generateNotes env p).response.text =
        mkSuccessText p.sourceType.str p.courseName
          ((resolveTranscriptPathVal p.courseName).display) outPath lenStr) ∧
    (∀ loc, jsOrDisplay (resolveTranscriptPathVal p.courseName) loc =
      (resolveTranscriptPathVal p.courseName).display) ∧
    (COURSE_TRANSCRIPT_PATHS.lookup p.courseName = none →
      p.courseName ∉ OBJECT_PROTOTYPE_KEYS →
      resolveTranscriptPathVal p.courseName = .pstr DEFAULT_TRANSCRIPT_PATH) := by
  have hdisp : ∀ loc, jsOrDisplay (resolveTranscriptPathVal p.courseName) loc =
      (resolveTranscriptPathVal p.courseName).display :=
    fun loc =>
      jsOrDisplay_eq_display _ _ (resolveTranscriptPathVal_ne_pstr_empty _)
  refine ⟨?_, hdisp, ?_⟩
  · have h2 := finishOutcome_success_text p (resolveNotesPathVal p.courseName)
        (resolveTranscriptPathVal p.courseName)
        (acquisition env p (resolveTranscriptPathVal p.courseName)).2
        (by rw [← generateNotes_response]; exact hOk)
    rw [hdisp] at h2
    rw [generateNotes_response]
    exact h2
  · intro hl hc
    simp [resolveTranscriptPathVal, jsIndex, hl, hc, jsOrDefault]

/-- Witness for the amended C9 at a concrete input: a successful `Math`
local-file request, whose Source field is the mapped transcript
directory. -/
theorem success_source_line_witness :
    (∃ outPath lenStr,
      (generateNotes envLocalHello reqLocalMath).response.text =
        mkSuccessText reqLocalMath.sourceType.str reqLocalMath.courseName
          ((resolveTranscriptPathVal reqLocalMath.courseName).display)
          outPath lenStr) ∧
    (∀ loc,
      jsOrDisplay (resolveTranscriptPathVal reqLocalMath.courseName) loc =
        (resolveTranscriptPathVal reqLocalMath.courseName).display) ∧
    (COURSE_TRANSCRIPT_PATHS.lookup reqLocalMath.courseName = none →
      reqLocalMath.courseName ∉ OBJECT_PROTOTYPE_KEYS →
      resolveTranscriptPathVal reqLocalMath.courseName =
        .pstr DEFAULT_TRANSCRIPT_PATH) :=
  success_source_line envLocalHello reqLocalMath rfl

/-- Claim C8 (a bug in the source): the spec says every unmapped course
name resolves to the default notes and transcript directories with a
warning diagnostic; but the tables are plain object literals, so for a
course name that collides with an `Object.prototype` property — here
`toString`, which has no entry in either table — the bracket lookup
returns the truthy inherited member: neither resolution yields its
default, and because the lookup is truthy the warning is not emitted
either (the run instead dies later in `path.join` with a TypeError). -/
theorem inherited_course_skips_defaults :
    COURSE_NOTES_PATHS.lookup "toString" = none ∧
    COURSE_TRANSCRIPT_PATHS.lookup "toString" = none ∧
    resolveNotesPathVal "toString" = .pinherited "toString" ∧
    resolveTranscriptPathVal "toString" = .pinherited "toString" ∧
    resolveNotesPathVal "toString" ≠ .pstr DEFAULT_NOTES_PATH ∧
    resolveTranscriptPathVal "toString" ≠ .pstr DEFAULT_TRANSCRIPT_PATH ∧
    (∀ msg, Effect.warn msg ∉ (generateNotes envYt reqProtoYt).effects) ∧
    (generateNotes envYt reqProtoYt).response.isError = true := by
  refine ⟨rfl, rfl, rfl, rfl, by decide, by decide, ?_, rfl⟩
  intro msg
  rw [show (generateNotes envYt reqProtoYt).effects =
    [Effect.spawn (ytCommand reqProtoYt)] from rfl]
  simp

end TranscriptManager
